import Mathlib

/-!
Verification development for the Push sandbox gateway (src/sandbox/app.py).

The gateway is a stateless collection of HTTP endpoints driving an ephemeral
remote sandbox.  We shallowly embed the endpoint handlers as pure Lean
functions.  External effects are made explicit:

* the sandbox is a `Sandbox` record (token file, a path-indexed file map,
  a terminated flag);
* every command the gateway executes inside the sandbox is modelled either
  by its standard shell/coreutils semantics (cat, wc -c, rm -rf, the
  base64 write pipeline, the fixed python token read/write scripts) or by
  an explicit oracle `ExecResult` parameter where a claim depends on the
  command's output being arbitrary (git, the user command of exec);
* DNS resolution is an oracle `String → Option (List IPv4)`;
* Python exceptions that can escape a handler are modelled with
  `Except String`.

Python strings are modelled as Lean `String` (both are sequences of
unicode code points, so `len`/slicing line up with `String.length` /
taking a prefix of `String.data`).
-/

/-- Python `s[:n]`: the first `n` code points of `s`. -/
def pyTake (s : String) (n : Nat) : String := String.mk (s.data.take n)

/-- Python `len(s)`: the number of code points of `s`. -/
def pyLen (s : String) : Nat := s.data.length

/-- The characters Python `str.strip()` removes (ASCII whitespace; the
strings stripped by the gateway are command output and JSON fields where
only these occur). -/
def pyWS (c : Char) : Bool :=
  c.toNat = 32 || c.toNat = 9 || c.toNat = 10 || c.toNat = 13 || c.toNat = 11 || c.toNat = 12

/-- Python `s.strip()`. -/
def pyStrip (s : String) : String :=
  String.mk (((s.data.dropWhile pyWS).reverse.dropWhile pyWS).reverse)

/-- ASCII lower-casing of one character (Python `str.lower()` on the ASCII
range; every string the gateway lowercases is a URL hostname). -/
def pyLowerChar (c : Char) : Char :=
  if 65 ≤ c.toNat && c.toNat ≤ 90 then Char.ofNat (c.toNat + 32) else c

/-- Python `s.lower()` (ASCII range). -/
def pyLower (s : String) : String := String.mk (s.data.map pyLowerChar)

/-- Python `s.isdigit()` restricted to ASCII digits (the only digits that
occur in `wc -c` output): nonempty and all characters are `0`-`9`. -/
def pyIsDigit (s : String) : Bool :=
  !s.data.isEmpty && s.data.all (fun c => 48 ≤ c.toNat && c.toNat ≤ 57)

/-- Python `int(s)` on a string of ASCII digits. -/
def pyParseNat (s : String) : Nat :=
  s.data.foldl (fun acc c => 10 * acc + (c.toNat - 48)) 0

/-- The ASCII digit character of `n < 10`. -/
def digitChar (n : Nat) : Char := Char.ofNat (48 + n)

/-- The decimal digits of `n`, most significant first (what `wc -c`
prints for a byte count `n`). -/
def natDigits (n : Nat) : List Char :=
  if h : n < 10 then [digitChar n] else natDigits (n / 10) ++ [digitChar (n % 10)]
  decreasing_by exact Nat.div_lt_self (by omega) (by omega)

theorem digitChar_toNat (n : Nat) (h : n < 10) : (digitChar n).toNat = 48 + n := by
  have hv : Nat.isValidChar (48 + n) := Or.inl (by omega)
  simp [digitChar, Char.ofNat, hv, Char.ofNatAux, Char.toNat, UInt32.toNat, BitVec.toNat_ofNatLt]

theorem digitChar_digit (n : Nat) (h : n < 10) :
    48 ≤ (digitChar n).toNat ∧ (digitChar n).toNat ≤ 57 := by
  rw [digitChar_toNat n h]; omega

theorem natDigits_ne_nil (n : Nat) : natDigits n ≠ [] := by
  rw [natDigits]
  split <;> simp

theorem natDigits_all_digit (n : Nat) :
    ∀ c ∈ natDigits n, 48 ≤ c.toNat ∧ c.toNat ≤ 57 := by
  induction n using Nat.strong_induction_on with
  | _ n ih =>
    rw [natDigits]
    split
    · intro c hc
      simp at hc
      subst hc
      exact digitChar_digit n (by omega)
    · intro c hc
      simp at hc
      rcases hc with h1 | h2
      · exact ih (n / 10) (Nat.div_lt_self (by omega) (by omega)) c h1
      · subst h2
        exact digitChar_digit (n % 10) (Nat.mod_lt _ (by omega))

theorem pyParseNat_append (l1 l2 : List Char) :
    (l1 ++ l2).foldl (fun acc c => 10 * acc + (c.toNat - 48)) 0 =
      l2.foldl (fun acc c => 10 * acc + (c.toNat - 48))
        (l1.foldl (fun acc c => 10 * acc + (c.toNat - 48)) 0) := by
  rw [List.foldl_append]

theorem pyParseNat_core_shift (l : List Char) (a : Nat) :
    l.foldl (fun acc c => 10 * acc + (c.toNat - 48)) a =
      a * 10 ^ l.length + l.foldl (fun acc c => 10 * acc + (c.toNat - 48)) 0 := by
  induction l generalizing a with
  | nil => simp
  | cons c t ih =>
    simp only [List.foldl_cons, List.length_cons]
    rw [ih (10 * a + (c.toNat - 48)), ih (10 * 0 + (c.toNat - 48))]
    ring

/-- Parsing the printed digits of `n` recovers `n`: `int(str(n)) = n`. -/
theorem pyParseNat_natDigits (n : Nat) :
    (natDigits n).foldl (fun acc c => 10 * acc + (c.toNat - 48)) 0 = n := by
  induction n using Nat.strong_induction_on with
  | _ n ih =>
    rw [natDigits]
    split
    · simp [digitChar_toNat n (by omega)]
    · rw [pyParseNat_append, List.foldl_cons, List.foldl_nil,
        pyParseNat_core_shift, ih (n / 10) (Nat.div_lt_self (by omega) (by omega))]
      simp [digitChar_toNat (n % 10) (Nat.mod_lt _ (by omega))]
      omega

/-- Stripping a string of non-whitespace characters followed by a newline
gives back the characters: `(s + "\n").strip() = s` when `s` is nonempty
and whitespace-free. -/
theorem pyStrip_append_newline (l : List Char) (hne : l ≠ [])
    (hws : ∀ c ∈ l, pyWS c = false) :
    pyStrip (String.mk (l ++ [Char.ofNat 10])) = String.mk l := by
  unfold pyStrip
  have hdw : (l ++ [Char.ofNat 10]).dropWhile pyWS = l ++ [Char.ofNat 10] := by
    cases l with
    | nil => exact absurd rfl hne
    | cons c t =>
      simp only [List.cons_append, List.dropWhile_cons]
      rw [hws c (by simp)]
      simp
  rw [hdw]
  have hrev : (l ++ [Char.ofNat 10]).reverse = Char.ofNat 10 :: l.reverse := by
    simp
  rw [hrev]
  have hnl : pyWS (Char.ofNat 10) = true := by decide
  rw [List.dropWhile_cons, hnl]
  have hdw2 : l.reverse.dropWhile pyWS = l.reverse := by
    cases hr : l.reverse with
    | nil => simp
    | cons c t =>
      rw [List.dropWhile_cons]
      have hc : c ∈ l := by
        have : c ∈ l.reverse := by rw [hr]; simp
        simpa using this
      rw [hws c hc]
      simp
  simp [hdw2]

/-- JSON values: the endpoints return JSON objects. -/
inductive JVal where
  | s (v : String)
  | n (v : Int)
  | b (v : Bool)
  | null
  | arr (items : List JVal)
  | obj (fields : List (String × JVal))

/-- A JSON object returned by an endpoint, with field order as in the
source dict literal. -/
abbrev Resp := List (String × JVal)

/-- Field lookup in a response object. -/
def getField (r : Resp) (key : String) : Option JVal := List.lookup key r

/-- Result of a command run inside the sandbox (a `ContainerProcess` after
`wait()`: captured stdout, stderr, and return code). -/
structure ExecResult where
  stdout : String
  stderr : String
  returncode : Int

/-- A path-indexed view of the sandbox filesystem: the content of each
regular file, `none` when absent. -/
abbrev FS := String → Option String

/-- The mutable state of one sandbox, as the gateway can observe and
change it.  `tokenFile` is the content of `/tmp/push-owner-token`
(`none` when the file does not exist); `tokenReadFails` injects a failure
of the fixed token-read command (unreadable file / transport failure),
making the read exit nonzero. -/
structure Sandbox where
  tokenFile : Option String
  tokenReadFails : Bool
  files : FS
  terminated : Bool

/-- Whether every character of `s` is ASCII. -/
def isAsciiStr (s : String) : Bool := s.data.all (fun c => c.toNat < 128)

/-- `hmac.compare_digest` on two `str` arguments: a timing-safe equality
test.  CPython raises `TypeError` when either string contains a
non-ASCII character; we model the exception as `Except.error`. -/
def compare_digest (a b : String) : Except String Bool :=
  if isAsciiStr a && isAsciiStr b then Except.ok (a == b)
  else Except.error "TypeError: comparing strings with non-ASCII characters is not supported"

/-- Output of the fixed token-read command
`python3 -c "...print(p.read_text(...) if p.exists() else ...)"`:
`print` appends a newline to the file content (empty content when the
file is absent). -/
def readTokenStdout (sb : Sandbox) : String := (sb.tokenFile.getD "") ++ "\n"

/-- `_validate_owner_token(sb, provided_token)` from src/sandbox/app.py:
rejects an empty provided token, runs the token-read command (returns
false when it exits nonzero), strips the captured stdout, and accepts iff
the stripped content is nonempty and `compare_digest`-equal to the
provided token.  The Python `and` short-circuits, so `compare_digest`
(and hence its possible `TypeError`) is only reached when the stored
content is nonempty. -/
def _validate_owner_token (sb : Sandbox) (provided_token : String) : Except String Bool :=
  if provided_token = "" then Except.ok false
  else if sb.tokenReadFails then Except.ok false
  else
    let expected := pyStrip (readTokenStdout sb)
    if expected = "" then Except.ok false
    else compare_digest expected provided_token

/-- `_issue_owner_token(sb)` from src/sandbox/app.py: `token` is the
fresh `secrets.token_urlsafe(32)` secret (passed in as a parameter of the
model) and `writeOk` tells whether the fixed token-write command
succeeded; on success the token becomes the sole content of the token
file and is returned, otherwise the function returns `None`. -/
def _issue_owner_token (sb : Sandbox) (token : String) (writeOk : Bool) :
    Option String × Sandbox :=
  if writeOk then (some token, { sb with tokenFile := some token })
  else (none, sb)

/-- The characters `secrets.token_urlsafe` can produce
(url-safe base64: letters, digits, minus, underscore). -/
def tokenChar (c : Char) : Bool :=
  (65 ≤ c.toNat && c.toNat ≤ 90) || (97 ≤ c.toNat && c.toNat ≤ 122) ||
    (48 ≤ c.toNat && c.toNat ≤ 57) || c.toNat = 45 || c.toNat = 95

theorem tokenChar_not_ws {c : Char} (h : tokenChar c = true) : pyWS c = false := by
  simp [tokenChar] at h
  simp [pyWS]
  omega

theorem tokenChar_ascii {c : Char} (h : tokenChar c = true) : c.toNat < 128 := by
  simp [tokenChar] at h
  omega

/-- UTF-8 encoding of one code point (Python `str.encode()` is UTF-8). -/
def charUtf8 (c : Char) : List Nat :=
  let n := c.toNat
  if n < 128 then [n]
  else if n < 2048 then [192 + n / 64, 128 + n % 64]
  else if n < 65536 then [224 + n / 4096, 128 + n / 64 % 64, 128 + n % 64]
  else [240 + n / 262144, 128 + n / 4096 % 64, 128 + n / 64 % 64, 128 + n % 64]

/-- The UTF-8 bytes of a string (`content.encode()`). -/
def utf8Bytes (s : String) : List Nat := (s.data.map charUtf8).flatten

/-- The byte length of a string's UTF-8 encoding — what `wc -c` counts
for a file holding exactly this content. -/
def utf8Len (s : String) : Nat := (utf8Bytes s).length

/-- The base64 alphabet character of an index `n < 64`. -/
def b64c (n : Nat) : Char :=
  "ABCDEFGHIJKLMNOPQRSTUVWXYZabcdefghijklmnopqrstuvwxyz0123456789+/".data.getD n (Char.ofNat 65)

/-- `base64.b64encode` on a byte list (padding with `=`). -/
def b64encode : List Nat → List Char
  | [] => []
  | [a] => [b64c (a / 4), b64c (a % 4 * 16), Char.ofNat 61, Char.ofNat 61]
  | [a, b] => [b64c (a / 4), b64c (a % 4 * 16 + b / 16), b64c (b % 16 * 4), Char.ofNat 61]
  | a :: b :: c :: rest =>
      [b64c (a / 4), b64c (a % 4 * 16 + b / 16), b64c (b % 16 * 4 + c / 64), b64c (c % 64)] ++
        b64encode rest

/-- The single-quote character. -/
def sqChar : Char := Char.ofNat 39

/-- `path.replace("'", "'\\''")` — the shell escaping the write arm
applies before embedding a path between single quotes. -/
def escapeSQ (s : String) : String :=
  s.replace (String.mk [sqChar]) (String.mk [sqChar, Char.ofNat 92, sqChar, sqChar])

/-- Point update of the file map. -/
def fsUpdate (fs : FS) (path content : String) : FS :=
  fun p => if p = path then some content else fs p

/-- `rm -rf path`: removes `path` and everything below it. -/
def fsRemoveTree (fs : FS) (path : String) : FS :=
  fun p => if p = path || (path ++ "/").isPrefixOf p then none else fs p

/-- Oracle results for the commands the `file_ops` write/delete/list arms
execute in the sandbox.  `writeEff` is the effect of the base64 write
pipeline on the file map (the command runs before its exit code is
inspected, so the effect applies regardless of `writeRes.returncode`);
`stdWriteExec` below instantiates everything with the standard
shell/coreutils semantics. -/
structure FileOpsExec where
  mkdirRes : ExecResult
  writeRes : ExecResult
  writeEff : FS → FS
  wcRes : ExecResult
  rmRes : ExecResult
  listRes : ExecResult
  listResp : Resp

/-- Standard semantics of the write-arm commands for a given `path` and
`content`:

* `mkdir -p "$(dirname path)"` succeeds and leaves the file map alone
  (directories are implicit in the model);
* `printf <encoded> | base64 -d > path` stores exactly `content`:
  the gateway sent `base64.b64encode(content.encode())` and the sandbox
  decoded it back, and the single-quote escaping of `path` makes the
  shell word expand to `path` verbatim, so the decoded UTF-8 bytes of
  `content` land at `path`;
* `wc -c < path` prints the decimal byte count of the file just written
  followed by a newline — the file now holds `content`, so the count is
  `utf8Len content`;
* `rm -rf path` removes the subtree at `path`.
-/
def stdWriteExec (path content : String) : FileOpsExec where
  mkdirRes := { stdout := "", stderr := "", returncode := 0 }
  writeRes := { stdout := "", stderr := "", returncode := 0 }
  writeEff := fun fs => fsUpdate fs path content
  wcRes := { stdout := String.mk (natDigits (utf8Len content) ++ [Char.ofNat 10]),
             stderr := "", returncode := 0 }
  rmRes := { stdout := "", stderr := "", returncode := 0 }
  listRes := { stdout := "", stderr := "", returncode := 0 }
  listResp := []

/-- `exec_command(data)` from src/sandbox/app.py.  `r` is the outcome of
`sb.exec("bash", "-c", cd workdir && command)` and `cmdEff` the effect of
that user command on the sandbox files (both oracle parameters: the
command is caller-supplied).  Field defaults follow the Python
`data.get` calls; a missing field and an empty string are
indistinguishable to the truthiness tests the handler uses, so both are
modelled as `""`. -/
def exec_command (sandbox_id owner_token command : String) (sb : Sandbox)
    (r : ExecResult) (cmdEff : FS → FS) : Except String (Resp × Sandbox) :=
  if sandbox_id = "" ∨ command = "" then
    Except.ok ([("error", JVal.s "Missing sandbox_id or command"), ("exit_code", JVal.n (-1))], sb)
  else
    match _validate_owner_token sb owner_token with
    | Except.error e => Except.error e
    | Except.ok false =>
        Except.ok ([("error", JVal.s "Unauthorized sandbox access"), ("exit_code", JVal.n (-1))], sb)
    | Except.ok true =>
        Except.ok
          ([("stdout", JVal.s (pyTake r.stdout 10000)),
            ("stderr", JVal.s (pyTake r.stderr 5000)),
            ("exit_code", JVal.n r.returncode),
            ("truncated", JVal.b (decide (pyLen r.stdout > 10000) || decide (pyLen r.stderr > 5000)))],
           { sb with files := cmdEff sb.files })

/-- `file_ops(data)` from src/sandbox/app.py: one endpoint dispatching on
`action` over read/write/list/delete.

* read is `cat path`, modelled by its standard semantics on `sb.files`
  (content of the file, or a nonzero exit with a cat error message when
  the path names no regular file);
* write is the three-stage mkdir/base64-decode/wc pipeline, with the
  stage outcomes taken from the `FileOpsExec` oracle `ex`;
* list runs the fixed python listing script; no claim depends on the
  authorized listing response, so it is the oracle field `ex.listResp`
  (the sandbox files are untouched);
* delete refuses the fixed root denylist by string equality and
  otherwise runs `rm -rf path` (standard subtree-removal semantics,
  reporting `ok` iff the oracle exit code is zero). -/
def file_ops (sandbox_id owner_token action path content : String) (sb : Sandbox)
    (ex : FileOpsExec) : Except String (Resp × Sandbox) :=
  if sandbox_id = "" then
    Except.ok ([("error", JVal.s "Missing sandbox_id")], sb)
  else if ¬ (action = "read" ∨ action = "write" ∨ action = "list" ∨ action = "delete") then
    Except.ok ([("error", JVal.s ("Unknown file operation: " ++ action))], sb)
  else
    match _validate_owner_token sb owner_token with
    | Except.error e => Except.error e
    | Except.ok false =>
        if action = "write" ∨ action = "delete" then
          Except.ok ([("ok", JVal.b false), ("error", JVal.s "Unauthorized sandbox access")], sb)
        else if action = "read" then
          Except.ok ([("error", JVal.s "Unauthorized sandbox access"), ("content", JVal.s "")], sb)
        else
          Except.ok ([("error", JVal.s "Unauthorized sandbox access"), ("entries", JVal.arr [])], sb)
    | Except.ok true =>
        if action = "read" then
          if path = "" then
            Except.ok ([("error", JVal.s "Missing sandbox_id or path")], sb)
          else
            match sb.files path with
            | some c =>
                Except.ok
                  ([("content", JVal.s (pyTake c 50000)),
                    ("truncated", JVal.b (decide (pyLen c > 50000)))], sb)
            | none =>
                Except.ok
                  ([("error", JVal.s ("Read failed: cat: " ++ path ++ ": No such file or directory")),
                    ("content", JVal.s "")], sb)
        else if action = "write" then
          if path = "" then
            Except.ok ([("ok", JVal.b false), ("error", JVal.s "Missing sandbox_id or path")], sb)
          else
            let safe_path := escapeSQ path
            let _ := safe_path
            if ex.mkdirRes.returncode ≠ 0 then
              Except.ok
                ([("ok", JVal.b false),
                  ("error", JVal.s ("Failed to create directory: " ++ ex.mkdirRes.stderr))], sb)
            else
              let encoded := String.mk (b64encode (utf8Bytes content))
              let _ := encoded
              let sb1 : Sandbox := { sb with files := ex.writeEff sb.files }
              if ex.writeRes.returncode ≠ 0 then
                Except.ok
                  ([("ok", JVal.b false),
                    ("error", JVal.s ("Write failed: " ++ ex.writeRes.stderr))], sb1)
              else if ex.wcRes.returncode ≠ 0 then
                Except.ok
                  ([("ok", JVal.b false),
                    ("error", JVal.s "Verification failed — file may not have been written")], sb1)
              else
                let written_bytes := pyStrip ex.wcRes.stdout
                Except.ok
                  ([("ok", JVal.b true),
                    ("bytes_written",
                      JVal.n (if pyIsDigit written_bytes then (pyParseNat written_bytes : Int) else 0))],
                   sb1)
        else if action = "list" then
          Except.ok (ex.listResp, sb)
        else
          if path = "" then
            Except.ok ([("ok", JVal.b false), ("error", JVal.s "Missing sandbox_id or path")], sb)
          else if path = "/" ∨ path = "/workspace" ∨ path = "/workspace/" then
            Except.ok ([("ok", JVal.b false), ("error", JVal.s "Cannot delete workspace root")], sb)
          else
            Except.ok ([("ok", JVal.b (decide (ex.rmRes.returncode = 0)))],
              { sb with files := fsRemoveTree sb.files path })

/-- `get_diff(data)` from src/sandbox/app.py.  The git commands are
oracle parameters: `statusRes` for `git status --porcelain`, `addRes`
and `addEff` for `git add -A` (result and effect on the files),
`diffRes` for `git diff --cached`; `lockEff` is the effect of the
best-effort `rm -f /workspace/.git/index.lock`. -/
def get_diff (sandbox_id owner_token : String) (sb : Sandbox)
    (lockEff : FS → FS) (statusRes : ExecResult) (addRes : ExecResult) (addEff : FS → FS)
    (diffRes : ExecResult) : Except String (Resp × Sandbox) :=
  if sandbox_id = "" then
    Except.ok ([("error", JVal.s "Missing sandbox_id"), ("diff", JVal.s "")], sb)
  else
    match _validate_owner_token sb owner_token with
    | Except.error e => Except.error e
    | Except.ok false =>
        Except.ok ([("error", JVal.s "Unauthorized sandbox access"), ("diff", JVal.s "")], sb)
    | Except.ok true =>
        let sb1 : Sandbox := { sb with files := lockEff sb.files }
        let status_output := pyStrip statusRes.stdout
        let status_stderr := pyStrip statusRes.stderr
        if status_stderr ≠ "" then
          Except.ok ([("error", JVal.s ("git status failed: " ++ status_stderr)),
                      ("diff", JVal.s "")], sb1)
        else if status_output = "" then
          Except.ok ([("diff", JVal.s ""), ("truncated", JVal.b false),
                      ("git_status", JVal.s "clean")], sb1)
        else
          let sb2 : Sandbox := { sb1 with files := addEff sb1.files }
          if addRes.returncode ≠ 0 then
            Except.ok ([("error", JVal.s ("git add failed: " ++ addRes.stderr)),
                        ("diff", JVal.s "")], sb2)
          else
            Except.ok
              ([("diff", JVal.s (pyTake diffRes.stdout 20000)),
                ("truncated", JVal.b (decide (pyLen diffRes.stdout > 20000))),
                ("git_status", JVal.s (pyTake status_output 2000))], sb2)

/-- `cleanup(data)` from src/sandbox/app.py: validates the owner token,
then terminates the sandbox. -/
def cleanup (sandbox_id owner_token : String) (sb : Sandbox) :
    Except String (Resp × Sandbox) :=
  if sandbox_id = "" then
    Except.ok ([("ok", JVal.b false), ("error", JVal.s "Missing sandbox_id")], sb)
  else
    match _validate_owner_token sb owner_token with
    | Except.error e => Except.error e
    | Except.ok false =>
        Except.ok ([("ok", JVal.b false), ("error", JVal.s "Unauthorized sandbox access")], sb)
    | Except.ok true =>
        Except.ok ([("ok", JVal.b true)], { sb with terminated := true })

/-- A parsed IPv4 address (each octet < 256, guaranteed by the parser). -/
structure IPv4 where
  a : Nat
  b : Nat
  c : Nat
  d : Nat

/-- The 32-bit number of an IPv4 address. -/
def ipv4Num (ip : IPv4) : Nat := ((ip.a * 256 + ip.b) * 256 + ip.c) * 256 + ip.d

/-- The network address `a.b.c.d` as a 32-bit number. -/
def netAddr (a b c d : Nat) : Nat := ((a * 256 + b) * 256 + c) * 256 + d

/-- Membership of address number `n` in the network `net/plen`. -/
def inNet (n net plen : Nat) : Bool := n / 2 ^ (32 - plen) = net / 2 ^ (32 - plen)

/-- `IPv4Address.is_private` (CPython `ipaddress`, 3.12 network list). -/
def ipIsPrivate (n : Nat) : Bool :=
  inNet n (netAddr 0 0 0 0) 8 || inNet n (netAddr 10 0 0 0) 8 ||
  inNet n (netAddr 127 0 0 0) 8 || inNet n (netAddr 169 254 0 0) 16 ||
  inNet n (netAddr 172 16 0 0) 12 || inNet n (netAddr 192 0 0 0) 29 ||
  inNet n (netAddr 192 0 0 170) 31 || inNet n (netAddr 192 0 2 0) 24 ||
  inNet n (netAddr 192 168 0 0) 16 || inNet n (netAddr 198 18 0 0) 15 ||
  inNet n (netAddr 198 51 100 0) 24 || inNet n (netAddr 203 0 113 0) 24 ||
  inNet n (netAddr 240 0 0 0) 4 || inNet n (netAddr 255 255 255 255) 32

/-- `IPv4Address.is_loopback`: 127.0.0.0/8. -/
def ipIsLoopback (n : Nat) : Bool := inNet n (netAddr 127 0 0 0) 8

/-- `IPv4Address.is_link_local`: 169.254.0.0/16. -/
def ipIsLinkLocal (n : Nat) : Bool := inNet n (netAddr 169 254 0 0) 16

/-- `IPv4Address.is_multicast`: 224.0.0.0/4. -/
def ipIsMulticast (n : Nat) : Bool := inNet n (netAddr 224 0 0 0) 4

/-- `IPv4Address.is_reserved`: 240.0.0.0/4. -/
def ipIsReserved (n : Nat) : Bool := inNet n (netAddr 240 0 0 0) 4

/-- `IPv4Address.is_unspecified`: 0.0.0.0. -/
def ipIsUnspecified (n : Nat) : Bool := n = 0

/-- The disjunction of range checks the SSRF guard applies to an address
(`is_private or is_loopback or is_link_local or is_multicast or
is_reserved or is_unspecified`). -/
def blockedV4 (ip : IPv4) : Bool :=
  let n := ipv4Num ip
  ipIsPrivate n || ipIsLoopback n || ipIsLinkLocal n || ipIsMulticast n ||
    ipIsReserved n || ipIsUnspecified n

/-- One dotted-quad component: nonempty ASCII digits, no leading zero
(except "0" itself), value at most 255 — what `ipaddress.ip_address`
accepts per octet. -/
def parseOctet (l : List Char) : Option Nat :=
  if l.isEmpty then none
  else if ¬ (l.all fun c => 48 ≤ c.toNat && c.toNat ≤ 57) then none
  else if 1 < l.length ∧ l.headD (Char.ofNat 48) = Char.ofNat 48 then none
  else
    let v := l.foldl (fun acc c => 10 * acc + (c.toNat - 48)) 0
    if v ≤ 255 then some v else none

/-- `ipaddress.ip_address(hostname)` for dotted-quad IPv4 literals;
`none` models the `ValueError` for anything else.  (IPv6 literals other
than the string "::1" — which the guard rejects earlier by name — do not
occur in this development and are not modelled.) -/
def parseIPv4 (s : String) : Option IPv4 :=
  match (s.data.splitOn (Char.ofNat 46)).map parseOctet with
  | [some a, some b, some c, some d] => some { a := a, b := b, c := c, d := d }
  | _ => none

/-- Split a character list at the first occurrence of `sep`. -/
def splitFirstChar (sep : Char) (l : List Char) : Option (List Char × List Char) :=
  match l.dropWhile (fun c => c ≠ sep) with
  | [] => none
  | _ :: post => some (l.takeWhile (fun c => c ≠ sep), post)

/-- The scheme characters of `urllib.parse` (letters, digits, `+`, `-`,
`.`). -/
def schemeChar (c : Char) : Bool :=
  (65 ≤ c.toNat && c.toNat ≤ 90) || (97 ≤ c.toNat && c.toNat ≤ 122) ||
    (48 ≤ c.toNat && c.toNat ≤ 57) || c.toNat = 43 || c.toNat = 45 || c.toNat = 46

/-- Whether `c` is an ASCII letter. -/
def alphaChar (c : Char) : Bool :=
  (65 ≤ c.toNat && c.toNat ≤ 90) || (97 ≤ c.toNat && c.toNat ≤ 122)

/-- `urlparse(url).scheme` and the remainder after the scheme: the
prefix before the first `:` when it is nonempty, starts with a letter
and consists of scheme characters (lowercased), else the empty scheme
and the whole input. -/
def pySplitScheme (url : String) : String × List Char :=
  match splitFirstChar (Char.ofNat 58) url.data with
  | some (pre, post) =>
      if ¬ pre.isEmpty ∧ alphaChar (pre.headD (Char.ofNat 97)) ∧ pre.all schemeChar then
        ((pyLower (String.mk pre)), post)
      else ("", url.data)
  | none => ("", url.data)

/-- The netloc of the remainder: when it starts with `//`, the
characters up to the first `/`, `?` or `#`; otherwise there is no
netloc. -/
def pyNetloc (rest : List Char) : List Char :=
  match rest with
  | c1 :: c2 :: tail =>
      if c1 = Char.ofNat 47 ∧ c2 = Char.ofNat 47 then
        tail.takeWhile fun c => ¬ (c.toNat = 47 ∨ c.toNat = 63 ∨ c.toNat = 35)
      else []
  | _ => []

/-- Drop everything up to and including the last occurrence of `sep`
(`rpartition`-style userinfo removal). -/
def afterLastChar (sep : Char) (l : List Char) : List Char :=
  (l.reverse.takeWhile (fun c => c ≠ sep)).reverse

/-- `urlparse(url).hostname or ""`: the netloc with userinfo removed;
a bracketed IPv6 host is the part between `[` and `]`, otherwise the
part before the first `:` (port removal); lowercased by the `hostname`
property. -/
def pyUrlHostname (url : String) : String :=
  let hostinfo := afterLastChar (Char.ofNat 64) (pyNetloc (pySplitScheme url).2)
  let host :=
    if hostinfo.contains (Char.ofNat 91) then
      ((hostinfo.dropWhile fun c => c ≠ Char.ofNat 91).drop 1).takeWhile
        fun c => c ≠ Char.ofNat 93
    else
      hostinfo.takeWhile fun c => c ≠ Char.ofNat 58
  pyLower (String.mk host)

/-- Python `s.endswith(suffix)`. -/
def pyEndsWith (s suffix : String) : Bool := suffix.data.isSuffixOf s.data

/-- `ALLOWED_DOMAINS` from src/sandbox/app.py. -/
def ALLOWED_DOMAINS : List String := ["push.ishawnd.workers.dev"]

/-- `_is_blocked_browser_target(url)` from src/sandbox/app.py.  `dns`
models `socket.getaddrinfo`: the resolved address set of a hostname
(`none` models a resolution failure raising `socket.gaierror`); the
guard re-parses each resolved address with `ipaddress.ip_address`, so
the oracle directly yields parsed addresses. -/
def _is_blocked_browser_target (dns : String → Option (List IPv4)) (url : String) :
    Bool × String :=
  let scheme := (pySplitScheme url).1
  if ¬ (scheme = "http" ∨ scheme = "https") then
    (true, "Only http(s) URLs are allowed")
  else
    let hostname := pyLower (pyStrip (pyUrlHostname url))
    if hostname = "" then
      (true, "URL hostname is required")
    else if ALLOWED_DOMAINS.contains hostname then
      (false, "")
    else if hostname = "localhost" ∨ hostname = "127.0.0.1" ∨ hostname = "::1" ∨
        pyEndsWith hostname ".local" = true then
      (true, "Localhost targets are not allowed")
    else
      match parseIPv4 hostname with
      | some ip =>
          if blockedV4 ip then (true, "Private/local network targets are not allowed")
          else (false, "")
      | none =>
          match dns hostname with
          | some addrs =>
              if addrs.any blockedV4 then
                (true, "Target resolves to a private/local network address")
              else (false, "")
          | none => (true, "Unable to resolve hostname")

/-- `browser_screenshot(data)` from src/sandbox/app.py, up to the SSRF
gate.  Everything after the guard passes (Browserbase session creation,
playwright navigation, capture, teardown) is the continuation `rest`,
universally quantified in the theorems: no claim depends on it, and the
pre-gate behaviour holds for every continuation.  `sessions` counts
remote browser sessions created so far; only `rest` can change it. -/
def browser_screenshot (sandbox_id owner_token url0 api_key0 project_id0 : String)
    (sb : Sandbox) (sessions : Nat) (dns : String → Option (List IPv4))
    (rest : Sandbox → Nat → Except String (Resp × Sandbox × Nat)) :
    Except String (Resp × Sandbox × Nat) :=
  let url := pyStrip url0
  if sandbox_id = "" ∨ url = "" then
    Except.ok ([("ok", JVal.b false), ("error", JVal.s "Missing sandbox_id or url")], sb, sessions)
  else
    match _validate_owner_token sb owner_token with
    | Except.error e => Except.error e
    | Except.ok false =>
        Except.ok ([("ok", JVal.b false), ("error", JVal.s "Unauthorized sandbox access")],
          sb, sessions)
    | Except.ok true =>
        let api_key := pyStrip api_key0
        let project_id := pyStrip project_id0
        if api_key = "" ∨ project_id = "" then
          Except.ok
            ([("ok", JVal.b false), ("error", JVal.s "BROWSERBASE_NOT_CONFIGURED"),
              ("details", JVal.s "Missing Browserbase credentials. Configure BROWSERBASE_API_KEY and BROWSERBASE_PROJECT_ID on the Worker.")],
             sb, sessions)
        else
          let blocked := _is_blocked_browser_target dns url
          if blocked.1 then
            Except.ok
              ([("ok", JVal.b false), ("error", JVal.s "INVALID_URL"),
                ("details", JVal.s blocked.2)], sb, sessions)
          else rest sb sessions

/-- `browser_extract(data)` from src/sandbox/app.py, up to the SSRF
gate; the structure of the pre-gate checks is identical to
`browser_screenshot` (the handlers differ only past the gate, inside
`rest`). -/
def browser_extract (sandbox_id owner_token url0 api_key0 project_id0 : String)
    (sb : Sandbox) (sessions : Nat) (dns : String → Option (List IPv4))
    (rest : Sandbox → Nat → Except String (Resp × Sandbox × Nat)) :
    Except String (Resp × Sandbox × Nat) :=
  let url := pyStrip url0
  if sandbox_id = "" ∨ url = "" then
    Except.ok ([("ok", JVal.b false), ("error", JVal.s "Missing sandbox_id or url")], sb, sessions)
  else
    match _validate_owner_token sb owner_token with
    | Except.error e => Except.error e
    | Except.ok false =>
        Except.ok ([("ok", JVal.b false), ("error", JVal.s "Unauthorized sandbox access")],
          sb, sessions)
    | Except.ok true =>
        let api_key := pyStrip api_key0
        let project_id := pyStrip project_id0
        if api_key = "" ∨ project_id = "" then
          Except.ok
            ([("ok", JVal.b false), ("error", JVal.s "BROWSERBASE_NOT_CONFIGURED"),
              ("details", JVal.s "Missing Browserbase credentials. Configure BROWSERBASE_API_KEY and BROWSERBASE_PROJECT_ID on the Worker.")],
             sb, sessions)
        else
          let blocked := _is_blocked_browser_target dns url
          if blocked.1 then
            Except.ok
              ([("ok", JVal.b false), ("error", JVal.s "INVALID_URL"),
                ("details", JVal.s blocked.2)], sb, sessions)
          else rest sb sessions

/-- An authorized reference sandbox for concrete instantiations: token
file holds "tok", reads succeed, no files, not terminated. -/
def sbAuth : Sandbox :=
  { tokenFile := some "tok", tokenReadFails := false, files := fun _ => none, terminated := false }

/-- A concrete oracle for `file_ops` commands at a fixed path/content. -/
def exDummy : FileOpsExec := stdWriteExec "/workspace/sub" "x"

/-- Validation returns false whenever the stripped stored token content
is blank, regardless of the provided token. -/
theorem validate_stored_blank (sb : Sandbox) (provided : String)
    (h : pyStrip (readTokenStdout sb) = "") :
    _validate_owner_token sb provided = Except.ok false := by
  unfold _validate_owner_token
  split
  · rfl
  · split
    · rfl
    · simp [h]

/-- Stripping the token-read output of a sandbox holding a nonempty
url-safe token gives back exactly the token. -/
theorem pyStrip_token_newline (t : String) (hne : t ≠ "")
    (hc : ∀ c ∈ t.data, tokenChar c = true) : pyStrip (t ++ "\n") = t := by
  obtain ⟨l⟩ := t
  have hl : l ≠ [] := fun h => hne (h ▸ rfl)
  have happ : (String.mk l ++ "\n") = String.mk (l ++ [Char.ofNat 10]) := rfl
  rw [happ]
  exact pyStrip_append_newline l hl (fun c hcl => tokenChar_not_ws (hc c hcl))

/-- C9: owner-token validation returns false for an empty provided token
and whenever the stored token-file content strips to the empty string —
in particular when the token file is absent or holds the empty string —
so for such a sandbox no provided token whatsoever can validate. -/
theorem C9_validate_empty_cases :
    (∀ sb : Sandbox, _validate_owner_token sb "" = Except.ok false) ∧
    (∀ (sb : Sandbox) (provided : String), pyStrip (readTokenStdout sb) = "" →
      _validate_owner_token sb provided = Except.ok false) ∧
    (∀ (sb : Sandbox) (provided : String), sb.tokenFile = none →
      _validate_owner_token sb provided = Except.ok false) ∧
    (∀ (sb : Sandbox) (provided : String), sb.tokenFile = some "" →
      _validate_owner_token sb provided = Except.ok false) := by
  refine ⟨fun sb => by simp [_validate_owner_token], validate_stored_blank, ?_, ?_⟩
  · intro sb provided h
    exact validate_stored_blank sb provided (by simp [readTokenStdout, h]; rfl)
  · intro sb provided h
    exact validate_stored_blank sb provided (by simp [readTokenStdout, h]; rfl)

/-- A sandbox whose token file was never written. -/
def sbNoTok : Sandbox :=
  { tokenFile := none, tokenReadFails := false, files := fun _ => none, terminated := false }

/-- A sandbox whose token file is empty. -/
def sbEmptyTok : Sandbox :=
  { tokenFile := some "", tokenReadFails := false, files := fun _ => none, terminated := false }

/-- C9 witness: a sandbox with no token file rejects the concrete
provided token "anything" (and the empty token), and a sandbox with an
empty token file rejects "anything" too. -/
theorem C9_validate_empty_cases_witness :
    _validate_owner_token sbNoTok "anything" = Except.ok false ∧
    _validate_owner_token sbEmptyTok "anything" = Except.ok false ∧
    _validate_owner_token sbAuth "" = Except.ok false := by
  refine ⟨C9_validate_empty_cases.2.2.1 sbNoTok "anything" rfl,
    C9_validate_empty_cases.2.2.2 sbEmptyTok "anything" rfl,
    C9_validate_empty_cases.1 sbAuth⟩

/-- C8: delete on a path string equal to the workspace root or sandbox
root (by string equality against the fixed denylist, with no
canonicalization) is refused with ok:false and leaves the sandbox
untouched; delete on any other nonempty path proceeds to the recursive
`rm -rf` removal, reporting ok iff it exited zero. -/
theorem C8_delete_root_denylist :
    (∀ (sid tok path content : String) (sb : Sandbox) (ex : FileOpsExec),
      sid ≠ "" → _validate_owner_token sb tok = Except.ok true →
      (path = "/" ∨ path = "/workspace" ∨ path = "/workspace/") →
      file_ops sid tok "delete" path content sb ex =
        Except.ok ([("ok", JVal.b false), ("error", JVal.s "Cannot delete workspace root")], sb)) ∧
    (∀ (sid tok path content : String) (sb : Sandbox) (ex : FileOpsExec),
      sid ≠ "" → _validate_owner_token sb tok = Except.ok true →
      path ≠ "" → ¬ (path = "/" ∨ path = "/workspace" ∨ path = "/workspace/") →
      file_ops sid tok "delete" path content sb ex =
        Except.ok ([("ok", JVal.b (decide (ex.rmRes.returncode = 0)))],
          { sb with files := fsRemoveTree sb.files path })) := by
  constructor
  · intro sid tok path content sb ex hsid hv hp
    have hpne : path ≠ "" := by rcases hp with h | h | h <;> subst h <;> decide
    simp only [file_ops, if_neg hsid, hv]
    simp [hpne, hp]
  · intro sid tok path content sb ex hsid hv hpne hp
    simp only [file_ops, if_neg hsid, hv]
    simp [hpne, hp]

/-- C8 witness: with an authorized sandbox, deleting the exact string
"/workspace" is refused without touching the files, and deleting the
subdirectory "/workspace/sub" removes that subtree and returns ok. -/
theorem C8_delete_root_denylist_witness :
    file_ops "sb1" "tok" "delete" "/workspace" "" sbAuth exDummy =
      Except.ok ([("ok", JVal.b false), ("error", JVal.s "Cannot delete workspace root")], sbAuth) ∧
    file_ops "sb1" "tok" "delete" "/workspace/sub" "" sbAuth exDummy =
      Except.ok ([("ok", JVal.b true)],
        { sbAuth with files := fsRemoveTree sbAuth.files "/workspace/sub" }) := by
  constructor
  · exact C8_delete_root_denylist.1 "sb1" "tok" "/workspace" "" sbAuth exDummy
      (by decide) rfl (Or.inr (Or.inl rfl))
  · have h := C8_delete_root_denylist.2 "sb1" "tok" "/workspace/sub" "" sbAuth exDummy
      (by decide) rfl (by decide) (by decide)
    rw [h]
    rfl

/-- C5: the claim fails on the code — `file_ops` dispatches only on
read, write, list and delete, and any other action string, "rename"
included, is rejected before authorization with an unknown-operation
error and no effect on the sandbox.  This theorem proves the amended
claim. -/
theorem C5_no_rename_operation :
    ∀ (sid tok action path content : String) (sb : Sandbox) (ex : FileOpsExec),
      sid ≠ "" →
      ¬ (action = "read" ∨ action = "write" ∨ action = "list" ∨ action = "delete") →
      file_ops sid tok action path content sb ex =
        Except.ok ([("error", JVal.s ("Unknown file operation: " ++ action))], sb) := by
  intro sid tok action path content sb ex hsid ha
  simp only [file_ops, if_neg hsid]
  simp [ha]

/-- C5 counterexample: a rename request against an authorized sandbox is
answered with the unknown-operation error — there is no rename
operation, so no "ensure parent directory then move" behaviour exists. -/
theorem C5_no_rename_operation_counterexample :
    file_ops "sb1" "tok" "rename" "/workspace/old.txt" "" sbAuth exDummy =
      Except.ok ([("error", JVal.s "Unknown file operation: rename")], sbAuth) := by
  exact C5_no_rename_operation "sb1" "tok" "rename" "/workspace/old.txt" "" sbAuth exDummy
    (by decide) (by decide)

/-- C5 witness: the amended theorem applied at the concrete action
"move", another unsupported operation name. -/
theorem C5_no_rename_operation_witness :
    file_ops "sb1" "tok" "move" "/workspace/old.txt" "" sbAuth exDummy =
      Except.ok ([("error", JVal.s "Unknown file operation: move")], sbAuth) := by
  exact C5_no_rename_operation "sb1" "tok" "move" "/workspace/old.txt" "" sbAuth exDummy
    (by decide) (by decide)

/-- An oracle result with 11,000 characters on stdout. -/
def r11k : ExecResult :=
  { stdout := String.mk (List.replicate 11000 (Char.ofNat 97)), stderr := "", returncode := 0 }

/-- C4 (amended): an authorized exec truncates stdout to its first
10,000 characters and stderr to its first 5,000, but reports truncation
through ONE combined boolean field "truncated" — true iff either stream
exceeded its ceiling — not through separate truncated_stdout /
truncated_stderr fields; a command producing 11,000 stdout characters
gets back exactly the first 10,000 of them with truncated true. -/
theorem C4_exec_truncation_combined :
    ∀ (sid tok cmd : String) (sb : Sandbox) (r : ExecResult) (eff : FS → FS),
      sid ≠ "" → cmd ≠ "" → _validate_owner_token sb tok = Except.ok true →
      exec_command sid tok cmd sb r eff =
        Except.ok ([("stdout", JVal.s (pyTake r.stdout 10000)),
          ("stderr", JVal.s (pyTake r.stderr 5000)),
          ("exit_code", JVal.n r.returncode),
          ("truncated", JVal.b (decide (pyLen r.stdout > 10000) || decide (pyLen r.stderr > 5000)))],
         { sb with files := eff sb.files }) ∧
      (pyLen r.stdout = 11000 →
        pyLen (pyTake r.stdout 10000) = 10000 ∧
        r.stdout.data.take 10000 <+: r.stdout.data ∧
        (decide (pyLen r.stdout > 10000) || decide (pyLen r.stderr > 5000)) = true) := by
  intro sid tok cmd sb r eff hsid hcmd hv
  constructor
  · simp only [exec_command, hv]
    rw [if_neg (by simp [hsid, hcmd])]
  · intro hlen
    refine ⟨?_, List.take_prefix _ _, ?_⟩
    · simp [pyLen, pyTake] at hlen ⊢
      omega
    · simp [pyLen] at hlen
      simp [pyLen, hlen]

/-- C4 counterexample: the response of a concrete authorized exec has no
truncated_stdout and no truncated_stderr field — only the combined
"truncated" — refuting the claim that the result carries separate
per-stream truncation fields. -/
theorem C4_exec_truncation_counterexample :
    exec_command "sb1" "tok" "ls" sbAuth
        { stdout := "out", stderr := "", returncode := 0 } id =
      Except.ok ([("stdout", JVal.s "out"), ("stderr", JVal.s ""), ("exit_code", JVal.n 0),
        ("truncated", JVal.b false)], sbAuth) ∧
    getField [("stdout", JVal.s "out"), ("stderr", JVal.s ""), ("exit_code", JVal.n 0),
        ("truncated", JVal.b false)] "truncated_stdout" = none ∧
    getField [("stdout", JVal.s "out"), ("stderr", JVal.s ""), ("exit_code", JVal.n 0),
        ("truncated", JVal.b false)] "truncated_stderr" = none := by
  exact ⟨rfl, rfl, rfl⟩

/-- C4 witness: the amended theorem applied to a command with 11,000
stdout characters: the response carries the first 10,000 characters and
the combined truncated flag is true. -/
theorem C4_exec_truncation_combined_witness :
    exec_command "sb1" "tok" "seq 1 9999" sbAuth r11k id =
      Except.ok ([("stdout", JVal.s (pyTake r11k.stdout 10000)),
        ("stderr", JVal.s (pyTake r11k.stderr 5000)),
        ("exit_code", JVal.n r11k.returncode),
        ("truncated", JVal.b (decide (pyLen r11k.stdout > 10000) || decide (pyLen r11k.stderr > 5000)))],
       { sbAuth with files := id sbAuth.files }) ∧
    pyLen (pyTake r11k.stdout 10000) = 10000 ∧
    (decide (pyLen r11k.stdout > 10000) || decide (pyLen r11k.stderr > 5000)) = true := by
  have h := C4_exec_truncation_combined "sb1" "tok" "seq 1 9999" sbAuth r11k id
    (by decide) (by decide) rfl
  have hlen : pyLen r11k.stdout = 11000 := by
    have hd : r11k.stdout.data = List.replicate 11000 (Char.ofNat 97) := rfl
    simp only [pyLen, hd, List.length_replicate]
  exact ⟨h.1, (h.2 hlen).1, (h.2 hlen).2.2⟩

/-- DNS oracle resolving every hostname to a link-local address. -/
def dnsLinkLocal : String → Option (List IPv4) := fun _ => some [{ a := 169, b := 254, c := 7, d := 8 }]

/-- DNS oracle resolving every hostname to a public address. -/
def dnsPublic : String → Option (List IPv4) := fun _ => some [{ a := 93, b := 184, c := 216, d := 34 }]

/-- DNS oracle resolving every hostname to the loopback address. -/
def dnsLoopback : String → Option (List IPv4) := fun _ => some [{ a := 127, b := 0, c := 0, d := 1 }]

/-- DNS oracle for which every resolution fails. -/
def dnsFail : String → Option (List IPv4) := fun _ => none

/-- C2: the SSRF guard blocks http://127.0.0.1/, http://10.1.2.3/ and
http://localhost/ under every DNS oracle; 169.254.x.x addresses fall in
a blocked range; a hostname that is not allow-listed and not an IP
literal is blocked whenever any one of its resolved addresses is in a
blocked range, and is only allowed when every resolved address is
unblocked; DNS resolution failure always blocks; and an allow-listed
hostname with an http(s) scheme is allowed unconditionally, whatever its
addresses would resolve to. -/
theorem C2_ssrf_guard :
    (∀ dns, (_is_blocked_browser_target dns "http://127.0.0.1/").1 = true) ∧
    (∀ dns, (_is_blocked_browser_target dns "http://10.1.2.3/").1 = true) ∧
    (∀ dns, (_is_blocked_browser_target dns "http://localhost/").1 = true) ∧
    (∀ x y : Nat, x < 256 → y < 256 → blockedV4 { a := 169, b := 254, c := x, d := y } = true) ∧
    (∀ (dns : String → Option (List IPv4)) (url : String) (addrs : List IPv4),
      ALLOWED_DOMAINS.contains (pyLower (pyStrip (pyUrlHostname url))) = false →
      parseIPv4 (pyLower (pyStrip (pyUrlHostname url))) = none →
      dns (pyLower (pyStrip (pyUrlHostname url))) = some addrs →
      (∃ a ∈ addrs, blockedV4 a = true) →
      (_is_blocked_browser_target dns url).1 = true) ∧
    (∀ (dns : String → Option (List IPv4)) (url : String) (addrs : List IPv4),
      ALLOWED_DOMAINS.contains (pyLower (pyStrip (pyUrlHostname url))) = false →
      parseIPv4 (pyLower (pyStrip (pyUrlHostname url))) = none →
      dns (pyLower (pyStrip (pyUrlHostname url))) = some addrs →
      (_is_blocked_browser_target dns url).1 = false →
      ∀ a ∈ addrs, blockedV4 a = false) ∧
    (∀ (dns : String → Option (List IPv4)) (url : String),
      ALLOWED_DOMAINS.contains (pyLower (pyStrip (pyUrlHostname url))) = false →
      parseIPv4 (pyLower (pyStrip (pyUrlHostname url))) = none →
      dns (pyLower (pyStrip (pyUrlHostname url))) = none →
      (_is_blocked_browser_target dns url).1 = true) ∧
    (∀ (dns : String → Option (List IPv4)) (url : String),
      ((pySplitScheme url).1 = "http" ∨ (pySplitScheme url).1 = "https") →
      ALLOWED_DOMAINS.contains (pyLower (pyStrip (pyUrlHostname url))) = true →
      _is_blocked_browser_target dns url = (false, "")) := by
  refine ⟨fun dns => rfl, ?_, fun dns => rfl, ?_, ?_, ?_, ?_, ?_⟩
  · intro dns
    have hb : blockedV4 { a := 10, b := 1, c := 2, d := 3 } = true := by decide
    have hp : parseIPv4 (pyLower (pyStrip (pyUrlHostname "http://10.1.2.3/"))) =
        some { a := 10, b := 1, c := 2, d := 3 } := by rfl
    have hs : (pySplitScheme "http://10.1.2.3/").1 = "http" := rfl
    have hh : pyLower (pyStrip (pyUrlHostname "http://10.1.2.3/")) = "10.1.2.3" := rfl
    simp only [_is_blocked_browser_target, hp]
    norm_num [hb]
    rw [hs, hh]
    decide
  · intro x y hx hy
    have hll : ipIsLinkLocal (ipv4Num { a := 169, b := 254, c := x, d := y }) = true := by
      simp only [ipIsLinkLocal, inNet, ipv4Num, netAddr, decide_eq_true_eq]
      omega
    simp [blockedV4, hll]
  · intro dns url addrs h_allow h_lit h_dns h_blocked
    have hany : addrs.any blockedV4 = true := by
      rw [List.any_eq_true]
      obtain ⟨a, ha, hb⟩ := h_blocked
      exact ⟨a, ha, hb⟩
    simp only [_is_blocked_browser_target]
    split
    · rfl
    · split
      · rfl
      · rw [h_allow]
        simp only [Bool.false_eq_true, if_false]
        split
        · rfl
        · rw [h_lit, h_dns]
          simp [hany]
  · intro dns url addrs h_allow h_lit h_dns h_res a ha
    revert h_res
    simp only [_is_blocked_browser_target]
    split
    · intro h; exact absurd h (by simp)
    · split
      · intro h; exact absurd h (by simp)
      · rw [h_allow]
        simp only [Bool.false_eq_true, if_false]
        split
        · intro h; exact absurd h (by simp)
        · rw [h_lit, h_dns]
          simp only []
          split
          · intro h; exact absurd h (by simp)
          · rename_i hnot
            intro _
            rw [List.any_eq_true] at hnot
            push_neg at hnot
            simpa using hnot a ha
  · intro dns url h_allow h_lit h_dns
    simp only [_is_blocked_browser_target]
    split
    · rfl
    · split
      · rfl
      · rw [h_allow]
        simp only [Bool.false_eq_true, if_false]
        split
        · rfl
        · rw [h_lit, h_dns]
  · intro dns url hsch h_in
    simp only [_is_blocked_browser_target]
    rw [if_neg (not_not_intro hsch)]
    have hh : pyLower (pyStrip (pyUrlHostname url)) = "push.ishawnd.workers.dev" := by
      simpa [ALLOWED_DOMAINS] using h_in
    rw [hh]
    have hc : ALLOWED_DOMAINS.contains "push.ishawnd.workers.dev" = true := by decide
    simp [hc]
    intro hmem
    exact absurd (by decide : "push.ishawnd.workers.dev" ∈ ALLOWED_DOMAINS) hmem

/-- C2 witness: concrete instantiations of each guarded clause — a
hostname resolving to 169.254.7.8 is blocked, a hostname resolving only
to the public 93.184.216.34 is allowed with every resolved address
unblocked, resolution failure blocks, and the allow-listed domain is
allowed even under a DNS oracle that maps it to 127.0.0.1. -/
theorem C2_ssrf_guard_witness :
    blockedV4 { a := 169, b := 254, c := 7, d := 8 } = true ∧
    (_is_blocked_browser_target dnsLinkLocal "http://internal.corp/").1 = true ∧
    (∀ a ∈ [({ a := 93, b := 184, c := 216, d := 34 } : IPv4)], blockedV4 a = false) ∧
    (_is_blocked_browser_target dnsFail "http://nores.example/").1 = true ∧
    _is_blocked_browser_target dnsLoopback "http://push.ishawnd.workers.dev/" = (false, "") := by
  refine ⟨C2_ssrf_guard.2.2.2.1 7 8 (by omega) (by omega), ?_, ?_, ?_, ?_⟩
  · exact C2_ssrf_guard.2.2.2.2.1 dnsLinkLocal "http://internal.corp/"
      [{ a := 169, b := 254, c := 7, d := 8 }] rfl rfl rfl
      ⟨_, List.mem_singleton.mpr rfl, C2_ssrf_guard.2.2.2.1 7 8 (by omega) (by omega)⟩
  · exact C2_ssrf_guard.2.2.2.2.2.1 dnsPublic "http://example.com/"
      [{ a := 93, b := 184, c := 216, d := 34 }] rfl rfl rfl (by decide)
  · exact C2_ssrf_guard.2.2.2.2.2.2.1 dnsFail "http://nores.example/" rfl rfl rfl
  · exact C2_ssrf_guard.2.2.2.2.2.2.2 dnsLoopback "http://push.ishawnd.workers.dev/"
      (Or.inl rfl) rfl

/-- A provided token of the same length as "tok" differing in one
character, the final character being non-ASCII (e with acute accent). -/
def provNonAscii : String := String.mk [Char.ofNat 116, Char.ofNat 111, Char.ofNat 233]

/-- C7 (amended): immediately after issue writes a fresh owner token,
validate accepts exactly that token; any other ASCII provided token —
differing in as little as one character — is rejected with false, as is
any provided token when the token file is absent or the read command
fails.  However, when the stored token is nonempty and the provided
token contains a non-ASCII character, `hmac.compare_digest` raises a
TypeError instead of returning false (see the counterexample), so the
all-tokens claim holds only for ASCII provided tokens. -/
theorem C7_issue_validate_roundtrip :
    (∀ (sb : Sandbox) (token : String), token ≠ "" →
      (∀ c ∈ token.data, tokenChar c = true) → sb.tokenReadFails = false →
      (_issue_owner_token sb token true).1 = some token ∧
      _validate_owner_token (_issue_owner_token sb token true).2 token = Except.ok true) ∧
    (∀ (sb : Sandbox) (token provided : String), token ≠ "" →
      (∀ c ∈ token.data, tokenChar c = true) → sb.tokenReadFails = false →
      provided ≠ token → isAsciiStr provided = true →
      _validate_owner_token (_issue_owner_token sb token true).2 provided = Except.ok false) ∧
    (∀ (sb : Sandbox) (provided : String), sb.tokenFile = none →
      _validate_owner_token sb provided = Except.ok false) ∧
    (∀ (sb : Sandbox) (provided : String), sb.tokenReadFails = true →
      _validate_owner_token sb provided = Except.ok false) := by
  have hval : ∀ (sb : Sandbox) (token provided : String), token ≠ "" →
      (∀ c ∈ token.data, tokenChar c = true) → sb.tokenReadFails = false → provided ≠ "" →
      _validate_owner_token (_issue_owner_token sb token true).2 provided =
        compare_digest token provided := by
    intro sb token provided hne hchars hrf hpne
    have hstrip : pyStrip (token ++ "\n") = token := pyStrip_token_newline token hne hchars
    simp only [_issue_owner_token, if_pos]
    unfold _validate_owner_token
    rw [if_neg hpne]
    simp only [readTokenStdout, hrf]
    rw [if_neg (by simp)]
    simp only [Option.getD_some, hstrip]
    rw [if_neg hne]
  have hascii : ∀ token : String, (∀ c ∈ token.data, tokenChar c = true) →
      isAsciiStr token = true := by
    intro token hchars
    simp only [isAsciiStr, List.all_eq_true]
    intro c hc
    simpa using tokenChar_ascii (hchars c hc)
  refine ⟨?_, ?_, ?_, ?_⟩
  · intro sb token hne hchars hrf
    refine ⟨by simp [_issue_owner_token], ?_⟩
    rw [hval sb token token hne hchars hrf hne]
    simp [compare_digest, hascii token hchars]
  · intro sb token provided hne hchars hrf hpne hpa
    by_cases hp0 : provided = ""
    · subst hp0
      simp [_validate_owner_token]
    · rw [hval sb token provided hne hchars hrf hp0]
      simp only [compare_digest, hascii token hchars, hpa, Bool.and_self, if_pos]
      have : (token == provided) = false := by
        simp [Ne.symm hpne]
      rw [this]
  · intro sb provided h
    exact validate_stored_blank sb provided (by simp [readTokenStdout, h]; rfl)
  · intro sb provided h
    unfold _validate_owner_token
    split
    · rfl
    · simp [h]

/-- C7 counterexample: with the stored token "tok", the provided token
"to" followed by a non-ASCII character — same length, differing in one
character — makes validation raise a TypeError (modelled as
Except.error) instead of returning false, refuting "validate returns
false for ANY token differing in even one character". -/
theorem C7_issue_validate_roundtrip_counterexample :
    provNonAscii ≠ "tok" ∧ pyLen provNonAscii = pyLen "tok" ∧
    _validate_owner_token sbAuth provNonAscii =
      Except.error "TypeError: comparing strings with non-ASCII characters is not supported" := by
  exact ⟨by decide, by decide, rfl⟩

/-- C7 witness: issuing the concrete token "tok" on a fresh sandbox then
validating it succeeds; validating the one-character-off ASCII token
"toX" fails; an absent token file and a failing read both reject. -/
theorem C7_issue_validate_roundtrip_witness :
    ((_issue_owner_token sbNoTok "tok" true).1 = some "tok" ∧
      _validate_owner_token (_issue_owner_token sbNoTok "tok" true).2 "tok" = Except.ok true) ∧
    _validate_owner_token (_issue_owner_token sbNoTok "tok" true).2 "toX" = Except.ok false ∧
    _validate_owner_token sbNoTok "tok" = Except.ok false ∧
    _validate_owner_token { sbAuth with tokenReadFails := true } "tok" = Except.ok false := by
  refine ⟨C7_issue_validate_roundtrip.1 sbNoTok "tok" (by decide) (by decide) rfl,
    C7_issue_validate_roundtrip.2.1 sbNoTok "tok" "toX" (by decide) (by decide) rfl
      (by decide) (by decide),
    C7_issue_validate_roundtrip.2.2.1 sbNoTok "tok" rfl,
    C7_issue_validate_roundtrip.2.2.2 { sbAuth with tokenReadFails := true } "tok" rfl⟩

theorem take_replicate_min {α : Type} (a : α) (n m : Nat) :
    (List.replicate m a).take n = List.replicate (min n m) a := by
  induction m generalizing n with
  | zero => simp
  | succ m ih =>
    cases n with
    | zero => simp
    | succ n =>
      simp [List.replicate_succ, ih, Nat.succ_min_succ]

/-- The `wc -c` output for byte count `n`, stripped, is the plain digit
string of `n`. -/
theorem pyStrip_wc_output (n : Nat) :
    pyStrip (String.mk (natDigits n ++ [Char.ofNat 10])) = String.mk (natDigits n) := by
  refine pyStrip_append_newline (natDigits n) (natDigits_ne_nil n) ?_
  intro c hc
  have := natDigits_all_digit n c hc
  simp [pyWS]
  omega

/-- The digit string of `n` passes Python `isdigit`. -/
theorem pyIsDigit_natDigits (n : Nat) : pyIsDigit (String.mk (natDigits n)) = true := by
  have hne := natDigits_ne_nil n
  simp only [pyIsDigit, Bool.and_eq_true, Bool.not_eq_true, List.all_eq_true]
  constructor
  · cases h : natDigits n with
    | nil => exact absurd h hne
    | cons c t => simp
  · intro c hc
    have := natDigits_all_digit n c hc
    simp
    omega

/-- `int` applied to the digit string of `n` recovers `n`. -/
theorem pyParseNat_natDigits_str (n : Nat) : pyParseNat (String.mk (natDigits n)) = n :=
  pyParseNat_natDigits n

/-- Validation ignores the file map: updating `files` does not change
the validation verdict. -/
theorem validate_files_invariant (sb : Sandbox) (f : FS) (tok : String) :
    _validate_owner_token { sb with files := f } tok = _validate_owner_token sb tok := rfl

/-- C3 (amended): for every path and every content of at most 50,000
characters — including content with embedded single quotes, newlines and
control characters, which travel base64-encoded, never interpolated —
an authorized write stores exactly `content` at `path` and returns
ok:true with bytes_written equal to the byte length of the written file
as measured by `wc -c` inside the sandbox (equal to the input's UTF-8
byte length), and a subsequent read of the same path returns the content
byte-identically with truncated:false.  The 50,000-character bound is
forced by the read path's truncation ceiling (see the counterexample):
the unrestricted claim is false. -/
theorem C3_write_read_roundtrip :
    ∀ (sid tok path content : String) (sb : Sandbox),
      sid ≠ "" → path ≠ "" → _validate_owner_token sb tok = Except.ok true →
      pyLen content ≤ 50000 →
      file_ops sid tok "write" path content sb (stdWriteExec path content) =
        Except.ok ([("ok", JVal.b true), ("bytes_written", JVal.n (utf8Len content))],
          { sb with files := fsUpdate sb.files path content }) ∧
      file_ops sid tok "read" path "" { sb with files := fsUpdate sb.files path content }
          (stdWriteExec path content) =
        Except.ok ([("content", JVal.s content), ("truncated", JVal.b false)],
          { sb with files := fsUpdate sb.files path content }) := by
  intro sid tok path content sb hsid hpath hv hlen
  constructor
  · simp only [file_ops, if_neg hsid, hv]
    simp [stdWriteExec, hpath, pyStrip_wc_output, pyIsDigit_natDigits,
      pyParseNat_natDigits_str, fsUpdate]
  · simp only [file_ops, if_neg hsid, validate_files_invariant, hv]
    have hfile : fsUpdate sb.files path content path = some content := by
      simp [fsUpdate]
    have htake : pyTake content 50000 = content := by
      simp only [pyTake]
      rw [List.take_of_length_le hlen]
    have htr : decide (pyLen content > 50000) = false := by
      simp
      omega
    simp [hfile, hpath, htake, htr]

/-- 50,001 copies of the character "a": one more than the read ceiling. -/
def content51 : String := String.mk (List.replicate 50001 (Char.ofNat 97))

/-- The sandbox state after writing `content51` at /workspace/big.txt. -/
def sbW51 : Sandbox :=
  { sbAuth with files := fsUpdate sbAuth.files "/workspace/big.txt" content51 }

/-- The response object of an endpoint call (empty on an exception). -/
def respOf (r : Except String (Resp × Sandbox)) : Resp :=
  match r with
  | Except.ok p => p.1
  | Except.error _ => []

/-- The sandbox state after an endpoint call (the given fallback on an
exception). -/
def stateOf (r : Except String (Resp × Sandbox)) (fallback : Sandbox) : Sandbox :=
  match r with
  | Except.ok p => p.2
  | Except.error _ => fallback

/-- C3 counterexample: writing 50,001 characters succeeds (ok:true), but
reading the same path back returns only the first 50,000 characters —
not byte-identical content — because the read arm truncates at 50,000,
so the claim quantified over EVERY content string is false. -/
theorem C3_write_read_roundtrip_counterexample :
    getField (respOf (file_ops "sb1" "tok" "write" "/workspace/big.txt" content51 sbAuth
        (stdWriteExec "/workspace/big.txt" content51))) "ok" = some (JVal.b true) ∧
    stateOf (file_ops "sb1" "tok" "write" "/workspace/big.txt" content51 sbAuth
        (stdWriteExec "/workspace/big.txt" content51)) sbAuth = sbW51 ∧
    getField (respOf (file_ops "sb1" "tok" "read" "/workspace/big.txt" "" sbW51
        (stdWriteExec "/workspace/big.txt" content51))) "content" =
      some (JVal.s (String.mk (List.replicate 50000 (Char.ofNat 97)))) ∧
    String.mk (List.replicate 50000 (Char.ofNat 97)) ≠ content51 := by
  refine ⟨rfl, rfl, ?_, ?_⟩
  · have htake : pyTake content51 50000 = String.mk (List.replicate 50000 (Char.ofNat 97)) := by
      have hd : content51.data = List.replicate 50001 (Char.ofNat 97) := rfl
      simp only [pyTake, hd, take_replicate_min]
      norm_num
    have hcall : file_ops "sb1" "tok" "read" "/workspace/big.txt" "" sbW51
        (stdWriteExec "/workspace/big.txt" content51) =
      Except.ok ([("content", JVal.s (pyTake content51 50000)),
        ("truncated", JVal.b (decide (pyLen content51 > 50000)))], sbW51) := rfl
    rw [hcall]
    simp only [respOf, getField, List.lookup, htake]
    rfl
  · intro h
    have hlen : (List.replicate 50000 (Char.ofNat 97)).length =
        (List.replicate 50001 (Char.ofNat 97)).length :=
      congrArg List.length (congrArg String.data h)
    simp only [List.length_replicate] at hlen
    omega

/-- A four-character content with an embedded single quote and newline. -/
def contentQN : String := String.mk [Char.ofNat 97, sqChar, Char.ofNat 10, Char.ofNat 98]

/-- C3 witness: the amended roundtrip applied to the concrete content
a-quote-newline-b at /workspace/f.txt on an authorized sandbox. -/
theorem C3_write_read_roundtrip_witness :
    file_ops "sb1" "tok" "write" "/workspace/f.txt" contentQN sbAuth
        (stdWriteExec "/workspace/f.txt" contentQN) =
      Except.ok ([("ok", JVal.b true), ("bytes_written", JVal.n (utf8Len contentQN))],
        { sbAuth with files := fsUpdate sbAuth.files "/workspace/f.txt" contentQN }) ∧
    file_ops "sb1" "tok" "read" "/workspace/f.txt" ""
        { sbAuth with files := fsUpdate sbAuth.files "/workspace/f.txt" contentQN }
        (stdWriteExec "/workspace/f.txt" contentQN) =
      Except.ok ([("content", JVal.s contentQN), ("truncated", JVal.b false)],
        { sbAuth with files := fsUpdate sbAuth.files "/workspace/f.txt" contentQN }) := by
  exact C3_write_read_roundtrip "sb1" "tok" "/workspace/f.txt" contentQN sbAuth
    (by decide) (by decide) rfl (by decide)

/-- A nonempty string has a positive UTF-8 byte length. -/
theorem utf8Len_pos (s : String) (h : s ≠ "") : 0 < utf8Len s := by
  obtain ⟨l⟩ := s
  have hl : l ≠ [] := fun hn => h (hn ▸ rfl)
  cases l with
  | nil => exact absurd rfl hl
  | cons c t =>
    have hc : charUtf8 c ≠ [] := by
      simp only [charUtf8]
      split
      · simp
      · split
        · simp
        · split <;> simp
    have hd : utf8Bytes (String.mk (c :: t)) = charUtf8 c ++ (t.map charUtf8).flatten := by
      simp [utf8Bytes]
    simp only [utf8Len, hd, List.length_append]
    have := List.length_pos.mpr hc
    omega

/-- C10: when the three write stages all exit zero but the verification
command's stdout, once stripped, is not a digit string, the write
endpoint still answers ok:true while reporting bytes_written as 0 — so
an ok:true write response does not by itself guarantee that
bytes_written equals the written file's byte length, which is positive
for any nonempty written content. -/
theorem C10_write_verification_nondigit :
    (∀ (sid tok path content : String) (sb : Sandbox) (ex : FileOpsExec),
      sid ≠ "" → path ≠ "" → _validate_owner_token sb tok = Except.ok true →
      ex.mkdirRes.returncode = 0 → ex.writeRes.returncode = 0 → ex.wcRes.returncode = 0 →
      pyIsDigit (pyStrip ex.wcRes.stdout) = false →
      file_ops sid tok "write" path content sb ex =
        Except.ok ([("ok", JVal.b true), ("bytes_written", JVal.n 0)],
          { sb with files := ex.writeEff sb.files })) ∧
    (∀ content : String, content ≠ "" → (0 : Int) ≠ (utf8Len content : Int)) := by
  constructor
  · intro sid tok path content sb ex hsid hpath hv hm hw hwc hd
    simp only [file_ops, if_neg hsid, hv]
    simp [hpath, hm, hw, hwc, hd]
  · intro content h
    have := utf8Len_pos content h
    omega

/-- The standard write oracle for content "hi", with the verification
stdout corrupted to a non-digit string. -/
def exNonDigit : FileOpsExec :=
  { stdWriteExec "/workspace/f.txt" "hi" with
      wcRes := { stdout := "oops\n", stderr := "", returncode := 0 } }

/-- C10 witness: with verification stdout "oops", an authorized write of
"hi" answers ok:true and bytes_written 0, while the file written by the
pipeline holds "hi", whose byte length 2 differs from 0. -/
theorem C10_write_verification_nondigit_witness :
    file_ops "sb1" "tok" "write" "/workspace/f.txt" "hi" sbAuth exNonDigit =
      Except.ok ([("ok", JVal.b true), ("bytes_written", JVal.n 0)],
        { sbAuth with files := exNonDigit.writeEff sbAuth.files }) ∧
    (0 : Int) ≠ (utf8Len "hi" : Int) := by
  refine ⟨C10_write_verification_nondigit.1 "sb1" "tok" "/workspace/f.txt" "hi" sbAuth exNonDigit
    (by decide) (by decide) rfl rfl rfl rfl (by decide),
    C10_write_verification_nondigit.2 "hi" (by decide)⟩

/-- C6: an authorized diff call lands in exactly one of three response
shapes — a failure carrying an "error" field (when the status command
reports an error stream, or when staging exits nonzero), an explicit
clean result with empty diff and git_status "clean" (when the stripped
status output is empty), or the staged diff truncated to 20,000
characters with a copy of the status output truncated to 2,000
characters — and the shapes are mutually distinguishable: failures have
an "error" field, clean and has-diff do not, and the has-diff response
differs from the clean response whenever the truncated status copy is
not the literal string "clean" (git porcelain lines start with a
two-character status code and a space, so a real status output never
strips to "clean"). -/
theorem C6_diff_three_way :
    ∀ (sid tok : String) (sb : Sandbox) (lockEff : FS → FS) (statusRes addRes : ExecResult)
      (addEff : FS → FS) (diffRes : ExecResult),
      sid ≠ "" → _validate_owner_token sb tok = Except.ok true →
      (pyStrip statusRes.stderr ≠ "" →
        get_diff sid tok sb lockEff statusRes addRes addEff diffRes =
          Except.ok ([("error", JVal.s ("git status failed: " ++ pyStrip statusRes.stderr)),
            ("diff", JVal.s "")], { sb with files := lockEff sb.files })) ∧
      (pyStrip statusRes.stderr = "" → pyStrip statusRes.stdout = "" →
        get_diff sid tok sb lockEff statusRes addRes addEff diffRes =
          Except.ok ([("diff", JVal.s ""), ("truncated", JVal.b false),
            ("git_status", JVal.s "clean")], { sb with files := lockEff sb.files })) ∧
      (pyStrip statusRes.stderr = "" → pyStrip statusRes.stdout ≠ "" → addRes.returncode ≠ 0 →
        get_diff sid tok sb lockEff statusRes addRes addEff diffRes =
          Except.ok ([("error", JVal.s ("git add failed: " ++ addRes.stderr)),
            ("diff", JVal.s "")], { sb with files := addEff (lockEff sb.files) })) ∧
      (pyStrip statusRes.stderr = "" → pyStrip statusRes.stdout ≠ "" → addRes.returncode = 0 →
        get_diff sid tok sb lockEff statusRes addRes addEff diffRes =
          Except.ok ([("diff", JVal.s (pyTake diffRes.stdout 20000)),
            ("truncated", JVal.b (decide (pyLen diffRes.stdout > 20000))),
            ("git_status", JVal.s (pyTake (pyStrip statusRes.stdout) 2000))],
            { sb with files := addEff (lockEff sb.files) })) ∧
      (∀ (emsg : String),
        getField [("error", JVal.s emsg), ("diff", JVal.s "")] "error" = some (JVal.s emsg) ∧
        getField [("diff", JVal.s ""), ("truncated", JVal.b false),
          ("git_status", JVal.s "clean")] "error" = none ∧
        getField [("diff", JVal.s (pyTake diffRes.stdout 20000)),
          ("truncated", JVal.b (decide (pyLen diffRes.stdout > 20000))),
          ("git_status", JVal.s (pyTake (pyStrip statusRes.stdout) 2000))] "error" = none) ∧
      (pyTake (pyStrip statusRes.stdout) 2000 ≠ "clean" →
        ([("diff", JVal.s (pyTake diffRes.stdout 20000)),
          ("truncated", JVal.b (decide (pyLen diffRes.stdout > 20000))),
          ("git_status", JVal.s (pyTake (pyStrip statusRes.stdout) 2000))] : Resp) ≠
        [("diff", JVal.s ""), ("truncated", JVal.b false), ("git_status", JVal.s "clean")]) := by
  intro sid tok sb lockEff statusRes addRes addEff diffRes hsid hv
  refine ⟨?_, ?_, ?_, ?_, ?_, ?_⟩
  · intro h
    simp only [get_diff, if_neg hsid, hv]
    simp [h]
  · intro h1 h2
    simp only [get_diff, if_neg hsid, hv]
    simp [h1, h2]
  · intro h1 h2 h3
    simp only [get_diff, if_neg hsid, hv]
    simp [h1, h2, h3]
  · intro h1 h2 h3
    simp only [get_diff, if_neg hsid, hv]
    simp [h1, h2, h3]
  · intro emsg
    exact ⟨rfl, rfl, rfl⟩
  · intro hne hcollapse
    have := congrArg (fun r => getField r "git_status") hcollapse
    simp only [getField, List.lookup] at this
    exact hne (by
      have h2 := this
      simp at h2
      exact h2)

/-- git command oracle results for the C6 scenarios: a status error, a
clean tree, a dirty tree, a failing and a succeeding staging, a diff. -/
def statusErr : ExecResult := { stdout := "", stderr := "fatal: not a git repository", returncode := 128 }

def statusClean : ExecResult := { stdout := "", stderr := "", returncode := 0 }

def statusDirty : ExecResult := { stdout := "?? f.txt\n", stderr := "", returncode := 0 }

def addOk : ExecResult := { stdout := "", stderr := "", returncode := 0 }

def addFail : ExecResult := { stdout := "", stderr := "index locked", returncode := 1 }

def diffOut : ExecResult := { stdout := "diff --git a/f.txt b/f.txt\n", stderr := "", returncode := 0 }

/-- C6 witness: the three-way contract applied at concrete git oracle
outputs — a failing status yields the failure shape, an empty status the
clean shape, a dirty status with a successful staging the has-diff
shape, and the has-diff response differs from the clean response. -/
theorem C6_diff_three_way_witness :
    get_diff "sb1" "tok" sbAuth id statusErr addOk id diffOut =
      Except.ok ([("error", JVal.s ("git status failed: " ++ pyStrip statusErr.stderr)),
        ("diff", JVal.s "")], { sbAuth with files := id sbAuth.files }) ∧
    get_diff "sb1" "tok" sbAuth id statusClean addOk id diffOut =
      Except.ok ([("diff", JVal.s ""), ("truncated", JVal.b false),
        ("git_status", JVal.s "clean")], { sbAuth with files := id sbAuth.files }) ∧
    get_diff "sb1" "tok" sbAuth id statusDirty addFail id diffOut =
      Except.ok ([("error", JVal.s ("git add failed: " ++ addFail.stderr)),
        ("diff", JVal.s "")], { sbAuth with files := id (id sbAuth.files) }) ∧
    get_diff "sb1" "tok" sbAuth id statusDirty addOk id diffOut =
      Except.ok ([("diff", JVal.s (pyTake diffOut.stdout 20000)),
        ("truncated", JVal.b (decide (pyLen diffOut.stdout > 20000))),
        ("git_status", JVal.s (pyTake (pyStrip statusDirty.stdout) 2000))],
        { sbAuth with files := id (id sbAuth.files) }) ∧
    ([("diff", JVal.s (pyTake diffOut.stdout 20000)),
      ("truncated", JVal.b (decide (pyLen diffOut.stdout > 20000))),
      ("git_status", JVal.s (pyTake (pyStrip statusDirty.stdout) 2000))] : Resp) ≠
      [("diff", JVal.s ""), ("truncated", JVal.b false), ("git_status", JVal.s "clean")] := by
  refine ⟨(C6_diff_three_way "sb1" "tok" sbAuth id statusErr addOk id diffOut
      (by decide) rfl).1 (by decide),
    (C6_diff_three_way "sb1" "tok" sbAuth id statusClean addOk id diffOut
      (by decide) rfl).2.1 rfl rfl,
    (C6_diff_three_way "sb1" "tok" sbAuth id statusDirty addFail id diffOut
      (by decide) rfl).2.2.1 rfl (by decide) (by decide),
    (C6_diff_three_way "sb1" "tok" sbAuth id statusDirty addOk id diffOut
      (by decide) rfl).2.2.2.1 rfl (by decide) rfl,
    (C6_diff_three_way "sb1" "tok" sbAuth id statusDirty addOk id diffOut
      (by decide) rfl).2.2.2.2.2 (by decide)⟩

/-- C1: whenever owner-token validation returns false, every
token-guarded operation returns its structured unauthorized error and
leaves all state untouched: the sandbox record (file map, token file,
terminated flag) is returned exactly as it was, no oracle command effect
is applied — the conclusions hold for every command result, effect
function and continuation, so in particular no user command, git
command, file write, recursive delete or sandbox termination happens —
and the browser endpoints return before their continuation runs, so the
session counter is unchanged and no browser session is created. -/
theorem C1_unauthorized_no_side_effect :
    (∀ (sid tok cmd : String) (sb : Sandbox) (r : ExecResult) (eff : FS → FS),
      sid ≠ "" → cmd ≠ "" → _validate_owner_token sb tok = Except.ok false →
      exec_command sid tok cmd sb r eff =
        Except.ok ([("error", JVal.s "Unauthorized sandbox access"), ("exit_code", JVal.n (-1))], sb)) ∧
    (∀ (sid tok path content : String) (sb : Sandbox) (ex : FileOpsExec),
      sid ≠ "" → _validate_owner_token sb tok = Except.ok false →
      file_ops sid tok "read" path content sb ex =
        Except.ok ([("error", JVal.s "Unauthorized sandbox access"), ("content", JVal.s "")], sb)) ∧
    (∀ (sid tok path content : String) (sb : Sandbox) (ex : FileOpsExec),
      sid ≠ "" → _validate_owner_token sb tok = Except.ok false →
      file_ops sid tok "write" path content sb ex =
        Except.ok ([("ok", JVal.b false), ("error", JVal.s "Unauthorized sandbox access")], sb)) ∧
    (∀ (sid tok path content : String) (sb : Sandbox) (ex : FileOpsExec),
      sid ≠ "" → _validate_owner_token sb tok = Except.ok false →
      file_ops sid tok "list" path content sb ex =
        Except.ok ([("error", JVal.s "Unauthorized sandbox access"), ("entries", JVal.arr [])], sb)) ∧
    (∀ (sid tok path content : String) (sb : Sandbox) (ex : FileOpsExec),
      sid ≠ "" → _validate_owner_token sb tok = Except.ok false →
      file_ops sid tok "delete" path content sb ex =
        Except.ok ([("ok", JVal.b false), ("error", JVal.s "Unauthorized sandbox access")], sb)) ∧
    (∀ (sid tok : String) (sb : Sandbox) (lockEff : FS → FS) (statusRes addRes : ExecResult)
        (addEff : FS → FS) (diffRes : ExecResult),
      sid ≠ "" → _validate_owner_token sb tok = Except.ok false →
      get_diff sid tok sb lockEff statusRes addRes addEff diffRes =
        Except.ok ([("error", JVal.s "Unauthorized sandbox access"), ("diff", JVal.s "")], sb)) ∧
    (∀ (sid tok url0 key proj : String) (sb : Sandbox) (sessions : Nat)
        (dns : String → Option (List IPv4))
        (rest : Sandbox → Nat → Except String (Resp × Sandbox × Nat)),
      sid ≠ "" → pyStrip url0 ≠ "" → _validate_owner_token sb tok = Except.ok false →
      browser_screenshot sid tok url0 key proj sb sessions dns rest =
        Except.ok ([("ok", JVal.b false), ("error", JVal.s "Unauthorized sandbox access")],
          sb, sessions)) ∧
    (∀ (sid tok url0 key proj : String) (sb : Sandbox) (sessions : Nat)
        (dns : String → Option (List IPv4))
        (rest : Sandbox → Nat → Except String (Resp × Sandbox × Nat)),
      sid ≠ "" → pyStrip url0 ≠ "" → _validate_owner_token sb tok = Except.ok false →
      browser_extract sid tok url0 key proj sb sessions dns rest =
        Except.ok ([("ok", JVal.b false), ("error", JVal.s "Unauthorized sandbox access")],
          sb, sessions)) ∧
    (∀ (sid tok : String) (sb : Sandbox),
      sid ≠ "" → _validate_owner_token sb tok = Except.ok false →
      cleanup sid tok sb =
        Except.ok ([("ok", JVal.b false), ("error", JVal.s "Unauthorized sandbox access")], sb)) := by
  refine ⟨?_, ?_, ?_, ?_, ?_, ?_, ?_, ?_, ?_⟩
  · intro sid tok cmd sb r eff hsid hcmd hv
    simp only [exec_command, hv]
    rw [if_neg (by simp [hsid, hcmd])]
  · intro sid tok path content sb ex hsid hv
    simp only [file_ops, if_neg hsid, hv]
    simp
  · intro sid tok path content sb ex hsid hv
    simp only [file_ops, if_neg hsid, hv]
    simp
  · intro sid tok path content sb ex hsid hv
    simp only [file_ops, if_neg hsid, hv]
    simp
  · intro sid tok path content sb ex hsid hv
    simp only [file_ops, if_neg hsid, hv]
    simp
  · intro sid tok sb lockEff statusRes addRes addEff diffRes hsid hv
    simp only [get_diff, if_neg hsid, hv]
  · intro sid tok url0 key proj sb sessions dns rest hsid hurl hv
    simp only [browser_screenshot, hv]
    rw [if_neg (by simp [hsid, hurl])]
  · intro sid tok url0 key proj sb sessions dns rest hsid hurl hv
    simp only [browser_extract, hv]
    rw [if_neg (by simp [hsid, hurl])]
  · intro sid tok sb hsid hv
    simp only [cleanup, if_neg hsid, hv]

/-- A continuation for the browser endpoints that would create one
session and return an empty response, were it ever reached. -/
def restProbe : Sandbox → Nat → Except String (Resp × Sandbox × Nat) :=
  fun sb n => Except.ok ([], sb, n + 1)

/-- C1 witness: each operation applied to a sandbox whose token file was
never written, with the wrong token "bad": every endpoint answers its
unauthorized error and returns the state unchanged. -/
theorem C1_unauthorized_no_side_effect_witness :
    exec_command "sb1" "bad" "rm -rf /" sbNoTok statusClean id =
      Except.ok ([("error", JVal.s "Unauthorized sandbox access"), ("exit_code", JVal.n (-1))],
        sbNoTok) ∧
    file_ops "sb1" "bad" "read" "/workspace/f" "" sbNoTok exDummy =
      Except.ok ([("error", JVal.s "Unauthorized sandbox access"), ("content", JVal.s "")],
        sbNoTok) ∧
    file_ops "sb1" "bad" "write" "/workspace/f" "x" sbNoTok exDummy =
      Except.ok ([("ok", JVal.b false), ("error", JVal.s "Unauthorized sandbox access")],
        sbNoTok) ∧
    file_ops "sb1" "bad" "list" "" "" sbNoTok exDummy =
      Except.ok ([("error", JVal.s "Unauthorized sandbox access"), ("entries", JVal.arr [])],
        sbNoTok) ∧
    file_ops "sb1" "bad" "delete" "/workspace" "" sbNoTok exDummy =
      Except.ok ([("ok", JVal.b false), ("error", JVal.s "Unauthorized sandbox access")],
        sbNoTok) ∧
    get_diff "sb1" "bad" sbNoTok id statusClean addOk id diffOut =
      Except.ok ([("error", JVal.s "Unauthorized sandbox access"), ("diff", JVal.s "")],
        sbNoTok) ∧
    browser_screenshot "sb1" "bad" "http://example.com/" "k" "p" sbNoTok 0 dnsPublic restProbe =
      Except.ok ([("ok", JVal.b false), ("error", JVal.s "Unauthorized sandbox access")],
        sbNoTok, 0) ∧
    browser_extract "sb1" "bad" "http://example.com/" "k" "p" sbNoTok 0 dnsPublic restProbe =
      Except.ok ([("ok", JVal.b false), ("error", JVal.s "Unauthorized sandbox access")],
        sbNoTok, 0) ∧
    cleanup "sb1" "bad" sbNoTok =
      Except.ok ([("ok", JVal.b false), ("error", JVal.s "Unauthorized sandbox access")],
        sbNoTok) := by
  refine ⟨C1_unauthorized_no_side_effect.1 "sb1" "bad" "rm -rf /" sbNoTok statusClean id
      (by decide) (by decide) rfl,
    C1_unauthorized_no_side_effect.2.1 "sb1" "bad" "/workspace/f" "" sbNoTok exDummy
      (by decide) rfl,
    C1_unauthorized_no_side_effect.2.2.1 "sb1" "bad" "/workspace/f" "x" sbNoTok exDummy
      (by decide) rfl,
    C1_unauthorized_no_side_effect.2.2.2.1 "sb1" "bad" "" "" sbNoTok exDummy
      (by decide) rfl,
    C1_unauthorized_no_side_effect.2.2.2.2.1 "sb1" "bad" "/workspace" "" sbNoTok exDummy
      (by decide) rfl,
    C1_unauthorized_no_side_effect.2.2.2.2.2.1 "sb1" "bad" sbNoTok id statusClean addOk id
      diffOut (by decide) rfl,
    C1_unauthorized_no_side_effect.2.2.2.2.2.2.1 "sb1" "bad" "http://example.com/" "k" "p"
      sbNoTok 0 dnsPublic restProbe (by decide) (by decide) rfl,
    C1_unauthorized_no_side_effect.2.2.2.2.2.2.2.1 "sb1" "bad" "http://example.com/" "k" "p"
      sbNoTok 0 dnsPublic restProbe (by decide) (by decide) rfl,
    C1_unauthorized_no_side_effect.2.2.2.2.2.2.2.2 "sb1" "bad" sbNoTok (by decide) rfl⟩
